import Mathlib

/-!
Verification of the golibbuttplug websocket client core against its
natural-language specification.

The Go sources are shallowly embedded: each Go struct becomes a Lean
structure, Go uint32 values become Nat with explicit reduction modulo
2^32 where overflow matters, channels become explicit event lists or
queues, and the select-based concurrency of the sender is made explicit
through an oracle argument standing for the runtime choice among ready
select cases.  Go composite literals that omit fields leave those fields
at their Go zero values; the Lean structures give the same defaults.
-/

namespace Golibbuttplug

/-! ## Message data model (message/message.go) -/

/-- message.Empty: request/response carrying only an Id. -/
structure EmptyMsg where
  id : Nat := 0
deriving DecidableEq

/-- message.Error: server-side failure report for a client message. -/
structure ErrorMsg where
  id : Nat := 0
  errorMessage : String := ""
deriving DecidableEq

/-- message.Test: development echo message. -/
structure TestMsg where
  id : Nat := 0
  testString : String := ""
deriving DecidableEq

/-- message.Log: log line from the server. -/
structure LogMsg where
  id : Nat := 0
  logLevel : String := ""
  logMessage : String := ""
deriving DecidableEq

/-- message.ServerInfo: handshake reply with version and ping data. -/
structure ServerInfo where
  id : Nat := 0
  serverName : String := ""
  messageVersion : Nat := 0
  majorVersion : Nat := 0
  minorVersion : Nat := 0
  buildVersion : Nat := 0
  maxPingTime : Nat := 0
deriving DecidableEq

/-- message.Device: device descriptor (also the DeviceAdded, DeviceRemoved
and StopDeviceCmd payload). -/
structure DeviceMsg where
  id : Nat := 0
  deviceName : String := ""
  deviceIndex : Nat := 0
  deviceMessages : List String := []
deriving DecidableEq

/-- message.DeviceList: reply to RequestDeviceList. -/
structure DeviceList where
  id : Nat := 0
  devices : List DeviceMsg := []
deriving DecidableEq

/-- message.RequestServerInfo. -/
structure RequestServerInfo where
  id : Nat := 0
  clientName : String := ""
deriving DecidableEq

/-- message.RawCmd: raw byte string command; bytes are modelled as Nat. -/
structure RawCmd where
  id : Nat := 0
  deviceIndex : Nat := 0
  command : List Nat := []
deriving DecidableEq

/-- message.SingleMotorVibrateCmd: Speed is a float64 in Go, modelled as a
rational number (the code only compares it against 0 and 1 and copies it). -/
structure SingleMotorVibrateCmd where
  id : Nat := 0
  deviceIndex : Nat := 0
  speed : ℚ := 0
deriving DecidableEq

/-- message.KiirooCmd. -/
structure KiirooCmd where
  id : Nat := 0
  deviceIndex : Nat := 0
  command : Int := 0
deriving DecidableEq

/-- message.FleshlightLaunchFW12Cmd. -/
structure FleshlightLaunchFW12Cmd where
  id : Nat := 0
  deviceIndex : Nat := 0
  position : Int := 0
  speed : Int := 0
deriving DecidableEq

/-- message.LovenseCmd. -/
structure LovenseCmd where
  id : Nat := 0
  deviceIndex : Nat := 0
  command : String := ""
deriving DecidableEq

/-- message.IncomingMessage: all messages a Buttplug server can send.
Each field mirrors a pointer in the Go struct; none stands for nil. -/
structure IncomingMessage where
  ok : Option EmptyMsg := none
  error : Option ErrorMsg := none
  test : Option TestMsg := none
  log : Option LogMsg := none
  serverInfo : Option ServerInfo := none
  scanningFinished : Option EmptyMsg := none
  deviceList : Option DeviceList := none
  deviceAdded : Option DeviceMsg := none
  deviceRemoved : Option DeviceMsg := none
deriving DecidableEq

/-- message.OutgoingMessage: all messages a Buttplug server can receive. -/
structure OutgoingMessage where
  ping : Option EmptyMsg := none
  test : Option TestMsg := none
  requestServerInfo : Option RequestServerInfo := none
  startScanning : Option EmptyMsg := none
  stopScanning : Option EmptyMsg := none
  requestDeviceList : Option EmptyMsg := none
  stopDeviceCmd : Option DeviceMsg := none
  stopAllDevices : Option EmptyMsg := none
  rawCmd : Option RawCmd := none
  singleMotorVibrateCmd : Option SingleMotorVibrateCmd := none
  kiirooCmd : Option KiirooCmd := none
  fleshlightLaunchFW12Cmd : Option FleshlightLaunchFW12Cmd := none
  lovenseCmd : Option LovenseCmd := none
deriving DecidableEq

/-- IncomingMessage.Message(): returns the id of the first populated
variant, checked in the same order as the Go switch; 0 when no variant is
populated.  (The Go method also returns the variant value itself; only the
id is used by the client, so only the id is modelled.) -/
def IncomingMessage.messageId (m : IncomingMessage) : Nat :=
  match m.ok with
  | some v => v.id
  | none =>
  match m.error with
  | some v => v.id
  | none =>
  match m.test with
  | some v => v.id
  | none =>
  match m.log with
  | some v => v.id
  | none =>
  match m.serverInfo with
  | some v => v.id
  | none =>
  match m.scanningFinished with
  | some v => v.id
  | none =>
  match m.deviceList with
  | some v => v.id
  | none =>
  match m.deviceAdded with
  | some v => v.id
  | none =>
  match m.deviceRemoved with
  | some v => v.id
  | none => 0

/-! ## IDCounter (message/sender.go) -/

/-- 2^32, the modulus of the Go uint32 counter. -/
def uint32Mod : Nat := 4294967296

/-- IDCounter.Generate: increments the uint32 counter (wrapping mod 2^32),
resets it to 1 when the increment wrapped to 0, and returns the new value.
The pair is (returned id, new counter value); the two components are always
equal, mirroring that Go returns c.value after the update. -/
def generate (value : Nat) : Nat × Nat :=
  let v1 := (value + 1) % uint32Mod
  let v2 := if v1 = 0 then 1 else v1
  (v2, v2)

/-! ## Broadcast hub (message/receiver.go) -/

/-- Capacity of one subscription buffer: Subscribe builds the Reader with
make(chan IncomingMessage, 10). -/
def readerBufCap : Nat := 10

/-- A hub subscription (Reader).  rid stands for the Reader pointer
identity used as the map key; buf is the content of its buffered channel,
oldest message first. -/
structure Reader where
  rid : Nat
  buf : List IncomingMessage
deriving DecidableEq

/-- One iteration of the msg case of hub.run: the hub walks its registry
and, for each reader, does a non-blocking send on the reader buffer; when
the buffer is full the default branch closes the buffer and deletes the
reader.  Returns (registry after delivery, readers that were closed and
removed).  The Go map iteration order is arbitrary; the registry is
modelled as a list and iterated in list order, each entry being handled
independently of the others. -/
def hubDeliver (msg : IncomingMessage) : List Reader → List Reader × List Reader
  | [] => ([], [])
  | r :: rest =>
      let (kept, evicted) := hubDeliver msg rest
      if r.buf.length < readerBufCap then
        ({ r with buf := r.buf ++ [msg] } :: kept, evicted)
      else
        (kept, r :: evicted)

/-! ## Sender (message/sender.go) -/

/-- bufferSize: capacity of the outgoing buffered channel. -/
def bufferSize : Nat := 256

/-- Sender state: queue is the content of the buffered out channel (oldest
first); stopped records whether Stop has run, which closes both the stop
channel and the out channel. -/
structure SenderState where
  queue : List OutgoingMessage
  stopped : Bool
deriving DecidableEq

/-- Outcome of one Sender.Send call. -/
inductive SendOutcome where
  | sent
  | stoppedErr
  | fullErr
  | panicked
deriving DecidableEq

/-- Oracle for the Go runtime uniform pseudo-random choice among the ready
cases of a select statement. -/
inductive SelectPick where
  | pickStop
  | pickSend
deriving DecidableEq

/-- Sender.Send: select over (receive from the stop channel), (send on the
out channel), default.  After Stop both channels are closed: the stop
receive is ready and the send on the closed out channel is also ready
(proceeding via a runtime panic), so the runtime picks one of the two at
random.  Before Stop the stop receive is not ready: the send succeeds when
the buffer has room, otherwise the default branch reports a full buffer. -/
def senderSend (st : SenderState) (m : OutgoingMessage) (pick : SelectPick) :
    SendOutcome × SenderState :=
  if st.stopped then
    match pick with
    | .pickStop => (.stoppedErr, st)
    | .pickSend => (.panicked, st)
  else if st.queue.length < bufferSize then
    (.sent, { st with queue := st.queue ++ [m] })
  else
    (.fullErr, st)

/-- Sender.Stop: closes the stop channel and the out channel (once). -/
def senderStop (st : SenderState) : SenderState :=
  { st with stopped := true }

/-! ## Receiver read loop (message/receiver.go, current revision) -/

/-- One result of conn.ReadJSON as seen by Receiver.run: either the
transport read failed, or a frame arrived whose JSON payload decodes to a
message list (some msgs) or fails to decode (none).  ReadJSON reports both
the transport failure and the decode failure through the same non-nil
error. -/
inductive FrameEvent where
  | readErr
  | frame (decoded : Option (List IncomingMessage))
deriving DecidableEq

/-- Observable effect of one iteration of Receiver.run. -/
structure StepEffect where
  publishes : List IncomingMessage
  connClosed : Bool
  doneClosed : Bool
  loopContinues : Bool
deriving DecidableEq

/-- Receiver.run, one iteration: err := conn.ReadJSON(&msgs); if err is
non-nil (transport failure or decode failure alike) the connection is
closed, the done channel is closed and the loop returns; otherwise every
decoded message is forwarded to the hub in frame order and the loop
continues. -/
def receiverRunStep : FrameEvent → StepEffect
  | .readErr => ⟨[], true, true, false⟩
  | .frame none => ⟨[], true, true, false⟩
  | .frame (some msgs) => ⟨msgs, false, false, true⟩

/-- Older revision of Receiver.run (the variant kept in the repository
that uses NextReader plus a JSON decoder): a transport read error is
fatal, while a non-text frame or a frame whose payload fails to decode is
logged and skipped. -/
inductive FrameEventOld where
  | readErr
  | nonText
  | frame (decoded : Option (List IncomingMessage))
deriving DecidableEq

/-- Old Receiver.run, one iteration. -/
def receiverRunStepOld : FrameEventOld → StepEffect
  | .readErr => ⟨[], true, false, false⟩
  | .nonText => ⟨[], false, false, true⟩
  | .frame none => ⟨[], false, false, true⟩
  | .frame (some msgs) => ⟨msgs, false, false, true⟩

/-! ## Client.receiveMessage (client.go) -/

/-- One wakeup of the select inside the receiveMessage loop: a message
delivered on the subscription channel, the channel found closed, or the
context deadline/cancellation firing. -/
inductive RecvEvent where
  | msg (m : IncomingMessage)
  | closed
  | ctxDone
deriving DecidableEq

/-- Result of receiveMessage. -/
inductive RMOutcome where
  | found (m : IncomingMessage)
  | readerStopped
  | ctxErr
  | blocked
deriving DecidableEq

/-- The receiveMessage for-select loop over the sequence of wakeups it
observes: a delivered message is returned when its extracted id equals the
requested id and skipped otherwise; a closed channel yields the reader
stopped error; the context firing yields the context error.  blocked is
the model artifact for an event list that ends without any of the three
exits (the Go loop would still be waiting). -/
def receiveMessageLoop (id : Nat) : List RecvEvent → RMOutcome
  | [] => .blocked
  | .msg m :: rest =>
      if m.messageId = id then .found m else receiveMessageLoop id rest
  | .closed :: _ => .readerStopped
  | .ctxDone :: _ => .ctxErr

/-- Client.receiveMessage including its effect on the hub registry
(modelled as the list of subscribed reader identities): Subscribe
registers a fresh reader, the loop runs, and the deferred Unsubscribe
removes the reader again on every exit path.  Returns the loop outcome and
the final registry. -/
def receiveMessageRun (reg : List Nat) (fresh : Nat) (id : Nat)
    (evs : List RecvEvent) : RMOutcome × List Nat :=
  let reg1 := fresh :: reg
  let out := receiveMessageLoop id evs
  (out, reg1.erase fresh)

/-- True for events the receiveMessage loop passes over without exiting:
messages whose extracted id differs from the requested id. -/
def skippable (id : Nat) : RecvEvent → Bool
  | .msg m => m.messageId != id
  | _ => false

/-! ## Client.sendMessage reply classification (client.go) -/

/-- Result of Client.sendMessage. -/
inductive SendMsgResult where
  | sendErr
  | recvErr
  | serverError (s : String)
  | protocolViolation
  | ok
deriving DecidableEq

/-- The reply handling at the end of Client.sendMessage: if r.Error is
non-nil return the server error carrying the server message; else if r.Ok
is nil return the did-not-receive-ok error; else success. -/
def classifyReply (r : IncomingMessage) : SendMsgResult :=
  match r.error with
  | some e => .serverError e.errorMessage
  | none =>
    match r.ok with
    | none => .protocolViolation
    | some _ => .ok

/-- Client.sendMessage end to end: Send the message (propagating a sender
failure), then wait for the correlated reply with receiveMessage
(propagating its failure), then classify the reply. -/
def sendMessageResult (sendOk : Bool) (recv : RMOutcome) : SendMsgResult :=
  if sendOk = false then .sendErr
  else
    match recv with
    | .found r => classifyReply r
    | _ => .recvErr

/-! ## Operation order of the send-and-await paths (client.go) -/

/-- Primitive session operations, in the order the client code performs
them. -/
inductive SessionAct where
  | senderSend
  | hubSubscribe
  | hubUnsubscribe
deriving DecidableEq

/-- Position of the first occurrence of an action in a trace (length of
the trace when the action does not occur). -/
def firstIndexOf (a : SessionAct) : List SessionAct → Nat
  | [] => 0
  | b :: rest => if a = b then 0 else firstIndexOf a rest + 1

/-- Trace of Client.receiveMessage: Subscribe, then (after the loop) the
deferred Unsubscribe. -/
def receiveMessageTrace : List SessionAct := [.hubSubscribe, .hubUnsubscribe]

/-- Trace of Client.sendMessage: sender.Send first, then receiveMessage. -/
def sendMessageTrace : List SessionAct := .senderSend :: receiveMessageTrace

/-- Trace of Client.initSession: sender.Send first, then receiveMessage. -/
def initSessionTrace : List SessionAct := .senderSend :: receiveMessageTrace

/-- Trace of Client.initDeviceList: sender.Send, then receiveMessage, then
the standing Subscribe for the event loop. -/
def initDeviceListTrace : List SessionAct :=
  .senderSend :: receiveMessageTrace ++ [.hubSubscribe]

/-! ## Ping interval selection (client.go, initSession) -/

/-- The keep-alive period chosen by initSession, in milliseconds:
interval := 1s; if MaxPingTime is non-zero and below 1000 then interval
:= (MaxPingTime / 2) ms (uint32 integer division). -/
def pingInterval (maxPingTime : Nat) : Nat :=
  if maxPingTime ≠ 0 ∧ maxPingTime < 1000 then maxPingTime / 2 else 1000

/-! ## Device table lifecycle (client.go, device.go) -/

/-- A *Device handle held in the client table: the descriptor copy plus
the state of its done channel (closed fires the Disconnected signal). -/
structure DeviceHandle where
  device : DeviceMsg
  doneClosed : Bool
deriving DecidableEq

/-- The client devices map, DeviceIndex to handle.  Modelled as an
association list with at most one entry per key. -/
def DeviceTable := List (Nat × DeviceHandle)

/-- Map lookup c.devices[i]: the handle when present.  In Go a missing key
yields the nil *Device pointer. -/
def lookupDevice (tbl : List (Nat × DeviceHandle)) (i : Nat) :
    Option DeviceHandle :=
  (tbl.find? fun p => p.1 == i).map (·.2)

/-- Client.addDevice: store a fresh handle (open done channel) under the
DeviceIndex of the descriptor, overwriting any previous entry. -/
def addDevice (tbl : List (Nat × DeviceHandle)) (d : DeviceMsg) :
    List (Nat × DeviceHandle) :=
  (tbl.filter fun p => p.1 ≠ d.deviceIndex) ++ [(d.deviceIndex, ⟨d, false⟩)]

/-- Initial table built by initDeviceList from the DeviceList snapshot:
addDevice for each descriptor in order. -/
def initTable (ds : List DeviceMsg) : List (Nat × DeviceHandle) :=
  ds.foldl addDevice []

/-- Client.removeDevice: the log statement first evaluates
c.devices[d.DeviceIndex].device.DeviceName; when the index is not in the
map this dereferences the nil *Device and panics (modelled as none).
Otherwise the guarded branch closes the done channel of the stored handle
and the entry is deleted.  Returns the table afterwards and the handle
whose Disconnected signal fired. -/
def removeDevice (tbl : List (Nat × DeviceHandle)) (d : DeviceMsg) :
    Option (List (Nat × DeviceHandle) × DeviceHandle) :=
  match lookupDevice tbl d.deviceIndex with
  | none => none
  | some dev =>
      some (tbl.filter fun p => p.1 ≠ d.deviceIndex,
            { dev with doneClosed := true })

/-! ## Device command methods (device.go) -/

/-- The command kind strings of device.go. -/
def CommandStopDevice : String := "StopDeviceCmd"

/-- CommandRaw. -/
def CommandRaw : String := "RawCmd"

/-- CommandSingleMotorVibrate. -/
def CommandSingleMotorVibrate : String := "SingleMotorVibrateCmd"

/-- CommandKiiroo. -/
def CommandKiiroo : String := "KiirooCmd"

/-- CommandFleshlightLaunchFW12. -/
def CommandFleshlightLaunchFW12 : String := "FleshlightLaunchFW12Cmd"

/-- CommandLovense. -/
def CommandLovense : String := "LovenseCmd"

/-- The device descriptor held by a Device handle (device.go Device.device). -/
structure GoDevice where
  deviceName : String := ""
  deviceIndex : Nat := 0
  deviceMessages : List String := []
deriving DecidableEq

/-- Device.IsSupported: linear scan of the DeviceMessages list. -/
def isSupported (d : GoDevice) (msgtype : String) : Bool :=
  d.deviceMessages.contains msgtype

/-- Local validation failures of the command methods. -/
inductive DevErr where
  | unsupported
  | invalidSpeed
  | invalidPosition
  | invalidCmd
deriving DecidableEq

/-- Result of building a device command: either a local validation error
or the OutgoingMessage handed to sendMessage, paired with the fresh id. -/
inductive CmdBuild where
  | err (e : DevErr)
  | msg (m : OutgoingMessage)
deriving DecidableEq

/-- Device.StopDeviceCmd: capability check, then a StopDeviceCmd message
carrying the fresh id and the DeviceIndex of the device. -/
def stopDeviceCmd (d : GoDevice) (id : Nat) : CmdBuild :=
  if !(isSupported d CommandStopDevice) then .err .unsupported
  else .msg { stopDeviceCmd := some { id := id, deviceIndex := d.deviceIndex } }

/-- Device.RawCmd: capability check, then a RawCmd message carrying the
fresh id and the command bytes (DeviceIndex omitted in the Go literal). -/
def rawCmd (d : GoDevice) (id : Nat) (cmd : List Nat) : CmdBuild :=
  if !(isSupported d CommandRaw) then .err .unsupported
  else .msg { rawCmd := some { id := id, command := cmd } }

/-- Device.SingleMotorVibrateCmd: capability check, speed range check,
then the message with the fresh id and the speed (DeviceIndex omitted). -/
def singleMotorVibrateCmd (d : GoDevice) (id : Nat) (spd : ℚ) : CmdBuild :=
  if !(isSupported d CommandSingleMotorVibrate) then .err .unsupported
  else if spd < 0 ∨ spd > 1 then .err .invalidSpeed
  else .msg { singleMotorVibrateCmd := some { id := id, speed := spd } }

/-- Device.KiirooCmd: capability check, range check on the command, then
the message with the fresh id and the command (DeviceIndex omitted). -/
def kiirooCmd (d : GoDevice) (id : Nat) (cmd : Int) : CmdBuild :=
  if !(isSupported d CommandKiiroo) then .err .unsupported
  else if cmd < 0 ∨ cmd > 4 then .err .invalidCmd
  else .msg { kiirooCmd := some { id := id, command := cmd } }

/-- Device.FleshlightLaunchFW12Cmd: capability check, position and speed
range checks, then the message with the fresh id, position and speed
(DeviceIndex omitted). -/
def fleshlightLaunchFW12Cmd (d : GoDevice) (id : Nat) (pos spd : Int) :
    CmdBuild :=
  if !(isSupported d CommandFleshlightLaunchFW12) then .err .unsupported
  else if pos < 0 ∨ pos > 99 then .err .invalidPosition
  else if spd < 0 ∨ spd > 99 then .err .invalidSpeed
  else .msg { fleshlightLaunchFW12Cmd :=
                some { id := id, position := pos, speed := spd } }

/-- Device.LovenseCmd: capability check, then the message with the fresh
id and the command string (DeviceIndex omitted). -/
def lovenseCmd (d : GoDevice) (id : Nat) (cmd : String) : CmdBuild :=
  if !(isSupported d CommandLovense) then .err .unsupported
  else .msg { lovenseCmd := some { id := id, command := cmd } }

/-! ## Theorems -/

/-- Skippable prefixes are passed over by the receiveMessage loop. -/
theorem receiveMessageLoop_skips (id : Nat) (pre : List RecvEvent)
    (hpre : pre.all (skippable id) = true) (l : List RecvEvent) :
    receiveMessageLoop id (pre ++ l) = receiveMessageLoop id l := by
  induction pre with
  | nil => rfl
  | cons e rest ih =>
      rw [List.all_cons, Bool.and_eq_true] at hpre
      cases e with
      | msg m =>
          have hm : ¬ m.messageId = id := by
            simpa [skippable] using hpre.1
          rw [List.cons_append]
          simp only [receiveMessageLoop, if_neg hm]
          exact ih hpre.2
      | closed => simp [skippable] at hpre
      | ctxDone => simp [skippable] at hpre

/-- Claim C1: the correlation wait returns the first delivered message
whose extracted id equals the requested id, skipping interleaved messages
with other ids; a fired deadline yields the context error; a closed
channel yields the reader-stopped error; and on every exit path the
subscription created at entry is unsubscribed again, leaving the hub
registry as it was before the call. -/
theorem receiveMessage_correct (reg : List Nat) (fresh : Nat) (id : Nat)
    (m : IncomingMessage) (pre rest : List RecvEvent)
    (hpre : pre.all (skippable id) = true) (hm : m.messageId = id) :
    (receiveMessageRun reg fresh id (pre ++ .msg m :: rest)).1 = .found m
  ∧ (receiveMessageRun reg fresh id (pre ++ .ctxDone :: rest)).1 = .ctxErr
  ∧ (receiveMessageRun reg fresh id (pre ++ .closed :: rest)).1 = .readerStopped
  ∧ ∀ evs, (receiveMessageRun reg fresh id evs).2 = reg := by
  refine ⟨?_, ?_, ?_, fun evs => ?_⟩
  · show receiveMessageLoop id (pre ++ .msg m :: rest) = _
    rw [receiveMessageLoop_skips id pre hpre]
    simp [receiveMessageLoop, hm]
  · show receiveMessageLoop id (pre ++ .ctxDone :: rest) = _
    rw [receiveMessageLoop_skips id pre hpre]
    rfl
  · show receiveMessageLoop id (pre ++ .closed :: rest) = _
    rw [receiveMessageLoop_skips id pre hpre]
    rfl
  · show (fresh :: reg).erase fresh = reg
    exact List.erase_cons_head fresh reg

/-- A reply with the requested id 7 arrives after an unrelated error reply
with id 4. -/
def mOk7 : IncomingMessage := { ok := some { id := 7 } }

/-- An unrelated reply with id 4, interleaved before the matching one. -/
def mErr4 : IncomingMessage := { error := some { id := 4, errorMessage := "other" } }

/-- Witness for C1 at a concrete registry, subscription and event list. -/
theorem receiveMessage_correct_witness :
    ([RecvEvent.msg mErr4].all (skippable 7) = true ∧ mOk7.messageId = 7)
  ∧ (receiveMessageRun [1, 2] 3 7 ([.msg mErr4] ++ .msg mOk7 :: [])).1 = .found mOk7
  ∧ (receiveMessageRun [1, 2] 3 7 ([.msg mErr4] ++ .ctxDone :: [])).1 = .ctxErr
  ∧ (receiveMessageRun [1, 2] 3 7 [.msg mErr4, .closed]).2 = [1, 2] := by
  have h := receiveMessage_correct [1, 2] 3 7 mOk7 [.msg mErr4] []
    (by decide) (by decide)
  exact ⟨⟨by decide, by decide⟩, h.1, h.2.1, h.2.2.2 [.msg mErr4, .closed]⟩

/-- Delivery characterization of one hub publish step: survivors are
exactly the readers with buffer room, each with the message appended at
the tail; the closed-and-removed readers are exactly the full ones. -/
theorem hubDeliver_eq (msg : IncomingMessage) (rs : List Reader) :
    hubDeliver msg rs =
      ((rs.filter fun r => decide (r.buf.length < readerBufCap)).map
         (fun r => { r with buf := r.buf ++ [msg] }),
       rs.filter fun r => !decide (r.buf.length < readerBufCap)) := by
  induction rs with
  | nil => rfl
  | cons r rest ih =>
      by_cases h : r.buf.length < readerBufCap
      · simp [hubDeliver, ih, List.filter_cons, h]
      · simp [hubDeliver, ih, List.filter_cons, h]

/-- Claim C2: a published message reaches every registered subscription
with buffer room exactly once, appended at the tail of its queue (so
queues list messages in publish order); a subscription with a full buffer
is closed and removed instead; and the eviction affects no other
subscription, each being handled independently (the publish step is a
total function of the registry, so the publisher is never blocked). -/
theorem hub_publish_fanout (msg : IncomingMessage) (rs : List Reader) :
    ((hubDeliver msg rs).1 =
       (rs.filter fun r => decide (r.buf.length < readerBufCap)).map
         (fun r => { r with buf := r.buf ++ [msg] }))
  ∧ ((hubDeliver msg rs).2 =
       rs.filter fun r => !decide (r.buf.length < readerBufCap))
  ∧ (∀ r ∈ rs, r.buf.length < readerBufCap →
       { r with buf := r.buf ++ [msg] } ∈ (hubDeliver msg rs).1
       ∧ (r.buf ++ [msg]).count msg = r.buf.count msg + 1)
  ∧ (∀ r ∈ rs, ¬ r.buf.length < readerBufCap → r ∈ (hubDeliver msg rs).2) := by
  have he := hubDeliver_eq msg rs
  refine ⟨by rw [he], by rw [he], ?_, ?_⟩
  · intro r hr hroom
    refine ⟨?_, ?_⟩
    · rw [he]
      exact List.mem_map_of_mem _ (List.mem_filter.mpr ⟨hr, by simpa using hroom⟩)
    · simp
  · intro r hr hfull
    rw [he]
    exact List.mem_filter.mpr ⟨hr, by simpa using hfull⟩

/-- A ScanningFinished broadcast used in the hub witnesses. -/
def mA : IncomingMessage := { scanningFinished := some { id := 0 } }

/-- An Ok broadcast used to pre-fill a full subscription buffer. -/
def mB : IncomingMessage := { ok := some { id := 1 } }

/-- A subscription with an empty buffer. -/
def rRoom : Reader := ⟨1, []⟩

/-- A subscription whose buffer already holds readerBufCap messages. -/
def rFull : Reader := ⟨2, List.replicate 10 mB⟩

/-- A registry with one roomy and one full subscription. -/
def rsW : List Reader := [rRoom, rFull]

/-- Witness for C2 on a concrete registry: the roomy subscription gets
exactly one copy appended and stays registered, the full one is evicted. -/
theorem hub_publish_fanout_witness :
    (rRoom ∈ rsW ∧ rRoom.buf.length < readerBufCap)
  ∧ ({ rRoom with buf := rRoom.buf ++ [mA] } ∈ (hubDeliver mA rsW).1
       ∧ (rRoom.buf ++ [mA]).count mA = rRoom.buf.count mA + 1)
  ∧ (¬ rFull.buf.length < readerBufCap)
  ∧ rFull ∈ (hubDeliver mA rsW).2 :=
  ⟨⟨by decide, by decide⟩,
   (hub_publish_fanout mA rsW).2.2.1 rRoom (by decide) (by decide),
   by decide,
   (hub_publish_fanout mA rsW).2.2.2 rFull (by decide) (by decide)⟩

/-- Counterexample for C3: in the trace of Client.sendMessage the hub
subscription is not created before the outbound message is handed to the
sender; the Send comes first. -/
theorem subscribe_before_send_false :
    ¬ (firstIndexOf .hubSubscribe sendMessageTrace <
         firstIndexOf .senderSend sendMessageTrace) := by decide

/-- Claim C3 amended: in every send-and-await path (sendMessage, and the
initSession and initDeviceList bootstraps), the outbound message is
submitted to the sender before the hub subscription for the reply is
created, so a reply arriving between the two is missed by the waiter. -/
theorem send_precedes_subscribe :
    firstIndexOf .senderSend sendMessageTrace <
      firstIndexOf .hubSubscribe sendMessageTrace
  ∧ firstIndexOf .senderSend initSessionTrace <
      firstIndexOf .hubSubscribe initSessionTrace
  ∧ firstIndexOf .senderSend initDeviceListTrace <
      firstIndexOf .hubSubscribe initDeviceListTrace := by decide

/-- Counterexample for C4: a frame whose payload fails to decode does not
make the current read loop continue; it terminates the loop, closes the
transport and signals session termination. -/
theorem decode_failure_not_skipped :
    ¬ ((receiverRunStep (.frame none)).loopContinues = true
        ∧ (receiverRunStep (.frame none)).connClosed = false
        ∧ (receiverRunStep (.frame none)).doneClosed = false) := by decide

/-- Claim C4 amended: in the current Receiver.run a decode failure is
treated exactly like a transport read error — the loop terminates, the
transport is closed and session termination is signalled; only frames
that decode successfully are forwarded, in frame order, with the loop
continuing. -/
theorem receiver_error_fatality (ev : FrameEvent) :
    ((receiverRunStep ev).loopContinues = false
       ↔ ev = .readErr ∨ ev = .frame none)
  ∧ ((receiverRunStep ev).connClosed = true
       ↔ ev = .readErr ∨ ev = .frame none)
  ∧ ((receiverRunStep ev).doneClosed = true
       ↔ ev = .readErr ∨ ev = .frame none)
  ∧ (∀ msgs, receiverRunStep (.frame (some msgs)) = ⟨msgs, false, false, true⟩) := by
  refine ⟨?_, ?_, ?_, fun msgs => rfl⟩ <;>
  · cases ev with
    | readErr => simp [receiverRunStep]
    | frame d => cases d <;> simp [receiverRunStep]

/-- The older Receiver.run revision kept in the repository skipped
non-text frames and decode failures and only terminated on a transport
read error (without a done channel to close). -/
theorem receiverRunStepOld_skips_decode_failures :
    receiverRunStepOld (.frame none) = ⟨[], false, false, true⟩
  ∧ receiverRunStepOld .nonText = ⟨[], false, false, true⟩
  ∧ receiverRunStepOld .readErr = ⟨[], true, false, false⟩ := by decide

/-- A Ping message used in the sender scenarios. -/
def pingMsg : OutgoingMessage := { ping := some { id := 1 } }

/-- Claim C5, failing path: once Stop has closed both the stop channel
and the out channel, a Send whose select picks the buffer-send case
panics (send on a closed channel) instead of returning the stopped
error. -/
theorem send_after_stop_can_panic :
    (senderSend (senderStop ⟨[], false⟩) pingMsg .pickSend).1 = .panicked := by
  decide

/-- When the runtime picks the stop-receive case instead, the post-Stop
Send returns the stopped error, the behavior the specification and the
explicit stop case of the Go select intend. -/
theorem send_after_stop_stopped_choice :
    (senderSend (senderStop ⟨[], false⟩) pingMsg .pickStop).1 = .stoppedErr := by
  decide

/-- Sequence of Send calls with no concurrent drain: the outcomes in
order (the pick oracle is irrelevant while the sender is not stopped). -/
def sendMany (st : SenderState) : List OutgoingMessage → List SendOutcome × SenderState
  | [] => ([], st)
  | m :: rest =>
      let p := senderSend st m .pickStop
      let q := sendMany p.2 rest
      (p.1 :: q.1, q.2)

set_option maxRecDepth 4000 in
/-- The queue-full half of C5 does hold: 257 consecutive Sends on a fresh
sender with no drain give 256 successes and a queue-full error on the
257th. -/
theorem sends_257_queue_full :
    (sendMany ⟨[], false⟩ (List.replicate 257 pingMsg)).1 =
      List.replicate 256 .sent ++ [.fullErr] := by decide

/-- Claim C6: the correlated reply received by sendMessage is translated
faithfully — a populated Error variant yields the server error carrying
the server message verbatim, a populated Ok variant (with Error absent)
yields success, and a reply with neither yields the protocol-violation
error; success is reported exactly for the Ok-and-no-Error replies. -/
theorem sendMessage_reply_classification (r : IncomingMessage) :
    (∀ e, r.error = some e →
        sendMessageResult true (.found r) = .serverError e.errorMessage)
  ∧ (r.error = none → ∀ o, r.ok = some o →
        sendMessageResult true (.found r) = .ok)
  ∧ (r.error = none → r.ok = none →
        sendMessageResult true (.found r) = .protocolViolation)
  ∧ (sendMessageResult true (.found r) = .ok ↔ r.error = none ∧ r.ok ≠ none) := by
  have hrun : sendMessageResult true (.found r) = classifyReply r := rfl
  refine ⟨?_, ?_, ?_, ?_⟩
  · intro e he
    rw [hrun]
    simp [classifyReply, he]
  · intro he o ho
    rw [hrun]
    simp [classifyReply, he, ho]
  · intro he ho
    rw [hrun]
    simp [classifyReply, he, ho]
  · rw [hrun]
    unfold classifyReply
    cases herr : r.error with
    | some e => simp
    | none => cases hok : r.ok with
      | none => simp
      | some o => simp

/-- A reply whose Error variant is populated. -/
def rErrReply : IncomingMessage := { error := some { id := 7, errorMessage := "boom" } }

/-- A reply whose Ok variant is populated. -/
def rOkReply : IncomingMessage := { ok := some { id := 7 } }

/-- A reply matching the request id but with neither Ok nor Error. -/
def rWeirdReply : IncomingMessage := { log := some { id := 7 } }

/-- Witness for C6 on the three concrete reply shapes. -/
theorem sendMessage_reply_classification_witness :
    (rErrReply.error = some { id := 7, errorMessage := "boom" }
       ∧ sendMessageResult true (.found rErrReply) = .serverError "boom")
  ∧ (rOkReply.error = none ∧ rOkReply.ok = some { id := 7 }
       ∧ sendMessageResult true (.found rOkReply) = .ok)
  ∧ (rWeirdReply.error = none ∧ rWeirdReply.ok = none
       ∧ sendMessageResult true (.found rWeirdReply) = .protocolViolation) :=
  ⟨⟨by decide, (sendMessage_reply_classification rErrReply).1
        { id := 7, errorMessage := "boom" } (by decide)⟩,
   ⟨by decide, by decide, (sendMessage_reply_classification rOkReply).2.1
        (by decide) { id := 7 } (by decide)⟩,
   ⟨by decide, by decide, (sendMessage_reply_classification rWeirdReply).2.2.1
        (by decide) (by decide)⟩⟩

/-- Claim C7: each Generate call returns a non-zero value, the returned
value is strictly greater than the previous counter value except at
wraparound, and a counter holding max uint32 yields 1 on the next call. -/
theorem generate_spec (v : Nat) (hv : v < uint32Mod) :
    (generate v).1 ≠ 0
  ∧ (v ≠ uint32Mod - 1 → v < (generate v).1)
  ∧ (generate (uint32Mod - 1)).1 = 1 := by
  refine ⟨?_, ?_, by decide⟩
  · show (if (v + 1) % uint32Mod = 0 then 1 else (v + 1) % uint32Mod) ≠ 0
    split
    · exact one_ne_zero
    · next h => exact h
  · intro h
    have h1 : v + 1 < uint32Mod := by
      simp only [uint32Mod] at hv h ⊢
      omega
    show v < (if (v + 1) % uint32Mod = 0 then 1 else (v + 1) % uint32Mod)
    rw [Nat.mod_eq_of_lt h1, if_neg (Nat.succ_ne_zero v)]
    exact Nat.lt_succ_self v

/-- Witness for C7 at counter value 41 (and the closed wraparound case). -/
theorem generate_spec_witness :
    41 < uint32Mod
  ∧ ((generate 41).1 ≠ 0
      ∧ (41 ≠ uint32Mod - 1 → 41 < (generate 41).1)
      ∧ (generate (uint32Mod - 1)).1 = 1) :=
  ⟨by decide, generate_spec 41 (by decide)⟩

/-- First device of the snapshot used in the C8 scenario. -/
def dev0 : DeviceMsg :=
  { deviceName := "TestDevice 1", deviceIndex := 0,
    deviceMessages := ["SingleMotorVibrateCmd"] }

/-- Second device of the snapshot used in the C8 scenario. -/
def dev1 : DeviceMsg :=
  { deviceName := "TestDevice 2", deviceIndex := 1,
    deviceMessages := ["LovenseCmd"] }

/-- Claim C8, evaluated: from a 2-device snapshot, a DeviceRemoved for
index 1 removes exactly that entry and fires the disconnect signal of its
handle; but a DeviceRemoved whose index is not in the table makes
removeDevice panic (the log statement dereferences the nil map value), so
the removal path does not hold for every event. -/
theorem removeDevice_snapshot_and_missing_index :
    removeDevice (initTable [dev0, dev1]) { deviceIndex := 1 } =
      some ([(0, ⟨dev0, false⟩)], ⟨dev1, true⟩)
  ∧ removeDevice (initTable [dev0, dev1]) { deviceIndex := 5 } = none := by
  decide

/-- Counterexample for C9: for an advertised MaxPingTime of 5000 ms the
chosen period is the 1 second fallback, not half the advertised value. -/
theorem pingInterval_not_half_at_5000 :
    pingInterval 5000 ≠ 5000 / 2 := by decide

/-- Claim C9 amended: the ping period is half the advertised interval
(uint32 integer division, in milliseconds) only when the server
advertises a non-zero interval below 1000 ms; when it advertises none
(zero) or an interval of 1000 ms or more, the fixed 1 second fallback is
used. -/
theorem pingInterval_spec (t : Nat) :
    (0 < t → t < 1000 → pingInterval t = t / 2)
  ∧ (t = 0 ∨ 1000 ≤ t → pingInterval t = 1000) := by
  constructor
  · intro h1 h2
    unfold pingInterval
    rw [if_pos ⟨Nat.pos_iff_ne_zero.mp h1, h2⟩]
  · intro h
    unfold pingInterval
    rcases h with h | h
    · rw [if_neg]
      intro hc
      exact hc.1 h
    · rw [if_neg]
      intro hc
      exact absurd hc.2 (not_lt.mpr h)

/-- Witness for C9 at 500 ms (halved) and 5000 ms (fallback). -/
theorem pingInterval_spec_witness :
    (0 < 500 ∧ 500 < 1000 ∧ pingInterval 500 = 500 / 2)
  ∧ (1000 ≤ 5000 ∧ pingInterval 5000 = 1000) :=
  ⟨⟨by decide, by decide, (pingInterval_spec 500).1 (by decide) (by decide)⟩,
   ⟨by decide, (pingInterval_spec 5000).2 (Or.inr (by decide))⟩⟩

/-- Claim C10: every command builder other than StopDeviceCmd leaves the
DeviceIndex field of its message at the Go zero value while carrying the
fresh id and the validated arguments; only StopDeviceCmd copies the
DeviceIndex of the device into the message. -/
theorem device_cmds_device_index (d : GoDevice) (id : Nat) :
    (∀ cmd, isSupported d CommandRaw = true →
        rawCmd d id cmd =
          .msg { rawCmd := some { id := id, deviceIndex := 0, command := cmd } })
  ∧ (∀ spd : ℚ, isSupported d CommandSingleMotorVibrate = true →
        ¬ (spd < 0 ∨ spd > 1) →
        singleMotorVibrateCmd d id spd =
          .msg { singleMotorVibrateCmd :=
                   some { id := id, deviceIndex := 0, speed := spd } })
  ∧ (∀ cmd : Int, isSupported d CommandKiiroo = true → ¬ (cmd < 0 ∨ cmd > 4) →
        kiirooCmd d id cmd =
          .msg { kiirooCmd := some { id := id, deviceIndex := 0, command := cmd } })
  ∧ (∀ pos spd : Int, isSupported d CommandFleshlightLaunchFW12 = true →
        ¬ (pos < 0 ∨ pos > 99) → ¬ (spd < 0 ∨ spd > 99) →
        fleshlightLaunchFW12Cmd d id pos spd =
          .msg { fleshlightLaunchFW12Cmd :=
                   some { id := id, deviceIndex := 0, position := pos, speed := spd } })
  ∧ (∀ cmd : String, isSupported d CommandLovense = true →
        lovenseCmd d id cmd =
          .msg { lovenseCmd := some { id := id, deviceIndex := 0, command := cmd } })
  ∧ (isSupported d CommandStopDevice = true →
        stopDeviceCmd d id =
          .msg { stopDeviceCmd := some { id := id, deviceIndex := d.deviceIndex } }) := by
  refine ⟨?_, ?_, ?_, ?_, ?_, ?_⟩
  · intro cmd h
    simp [rawCmd, h]
  · intro spd h hr
    simp [singleMotorVibrateCmd, h, hr]
  · intro cmd h hr
    simp [kiirooCmd, h, hr]
  · intro pos spd h hp hs
    simp [fleshlightLaunchFW12Cmd, h, hp, hs]
  · intro cmd h
    simp [lovenseCmd, h]
  · intro h
    simp [stopDeviceCmd, h]

/-- A device supporting all six command kinds, for the C10 witness. -/
def launchDev : GoDevice :=
  { deviceName := "Launch", deviceIndex := 3,
    deviceMessages := ["StopDeviceCmd", "RawCmd", "SingleMotorVibrateCmd",
                       "KiirooCmd", "FleshlightLaunchFW12Cmd", "LovenseCmd"] }

/-- Witness for C10 on a concrete device with valid arguments for each of
the six command methods. -/
theorem device_cmds_device_index_witness :
    rawCmd launchDev 9 [0, 16] =
      .msg { rawCmd := some { id := 9, deviceIndex := 0, command := [0, 16] } }
  ∧ singleMotorVibrateCmd launchDev 9 1 =
      .msg { singleMotorVibrateCmd := some { id := 9, deviceIndex := 0, speed := 1 } }
  ∧ kiirooCmd launchDev 9 4 =
      .msg { kiirooCmd := some { id := 9, deviceIndex := 0, command := 4 } }
  ∧ fleshlightLaunchFW12Cmd launchDev 9 50 20 =
      .msg { fleshlightLaunchFW12Cmd :=
               some { id := 9, deviceIndex := 0, position := 50, speed := 20 } }
  ∧ lovenseCmd launchDev 9 "Vibrate:10" =
      .msg { lovenseCmd := some { id := 9, deviceIndex := 0, command := "Vibrate:10" } }
  ∧ stopDeviceCmd launchDev 9 =
      .msg { stopDeviceCmd := some { id := 9, deviceIndex := 3 } } :=
  ⟨(device_cmds_device_index launchDev 9).1 [0, 16] (by decide),
   (device_cmds_device_index launchDev 9).2.1 1 (by decide) (by decide),
   (device_cmds_device_index launchDev 9).2.2.1 4 (by decide) (by decide),
   (device_cmds_device_index launchDev 9).2.2.2.1 50 20
     (by decide) (by decide) (by decide),
   (device_cmds_device_index launchDev 9).2.2.2.2.1 "Vibrate:10" (by decide),
   (device_cmds_device_index launchDev 9).2.2.2.2.2 (by decide)⟩

end Golibbuttplug
